import Mathlib

/-!
# user-service: a shallow embedding of the controller / service / repository stack

The development follows the Go packages of the repository and of the libraries it calls:

* `goerr`        the part of Go's `error` values the code observes
                 (`Error()`, `errors.Is`, `errors.Unwrap`, `fmt.Errorf` with `%w`);
* `strings`, `strconv`  the two library functions the controllers call;
* `models`       `models/user.go`;
* `validator`    the struct tags of `models.User` as run by `validate.Struct`;
* `sql`          `database/sql`: a handle over a driver, `Exec`, `Query`, `Scan`;
* `squirrel`     the statement builders used by the repository and their `ToSql`;
* `repositories` `repositories/user_repository.go`;
* `services`     `services/user_service.go`;
* `controllers`  `controllers/user_controller.go`;
* `sqlmock`      a driver that answers with canned results, as the test-suite does;
* `sqlite`       a small engine for the `users` table (rows of named columns);
* `statements`, `spec`, `fixtures`  the statement texts, a predicate of the
                 specification, and concrete data;
* `claims`       the properties, after the auxiliary facts.

Conventions. Go's `int` and `int64` are `Int` (the code performs no arithmetic on them).
A returned `error` is an `Option GoError` (`none` is `nil`); a pair of a value and an error
is an `Except`. Every operation takes the handle `DB` and returns the handle after the
call; the handle records the storage state and the statements sent so far. Go's byte-wise
`strings.HasPrefix` is the prefix relation on the character lists, with which it agrees on
well-formed UTF-8.
-/

set_option autoImplicit false

namespace goerr

/-- Package-level error variables: values whose identity `errors.Is` compares.
`ErrDuplicateUsername` and `ErrUserNotFound` are those of package `repositories`,
`ControllersErrDuplicateUsername` is the separate variable of package `controllers`. -/
inductive Sentinel where
  | ErrDuplicateUsername
  | ErrUserNotFound
  | ControllersErrDuplicateUsername
  deriving DecidableEq, Repr

/-- The text given to `errors.New` when the variable is initialised. -/
def Sentinel.text : Sentinel → String
  | .ErrDuplicateUsername => "duplicate username"
  | .ErrUserNotFound => "user not found"
  | .ControllersErrDuplicateUsername => "duplicate username"

/-- One entry of `validator.ValidationErrors`. -/
structure FieldError where
  ns : String
  field : String
  tag : String
  deriving DecidableEq, Repr

/-- Go error values as far as the program distinguishes them. -/
inductive GoError where
  /-- a package-level variable created once by `errors.New` -/
  | sentinel (s : Sentinel)
  /-- the value of `errors.New(msg)` or of `fmt.Errorf` without `%w`, made where the
  failure occurs -/
  | new (msg : String)
  /-- the value of `fmt.Errorf` with format `pre` followed by `%w`, applied to `cause` -/
  | wrap (pre : String) (cause : GoError)
  /-- a `sqlite3.Error` value: `Code`, `ExtendedCode` and the text `Error()` returns -/
  | sqlite (code : Int) (extendedCode : Int) (msg : String)
  /-- the `validator.ValidationErrors` of a failed `validate.Struct` -/
  | validation (errs : List FieldError)
  deriving DecidableEq, Repr

/-- Strings joined with a separator (`strings.Join`). -/
def join (sep : String) : List String → String
  | [] => ""
  | [x] => x
  | x :: y :: rest => x ++ sep ++ join sep (y :: rest)

/-- The method `Error()` of a field error. -/
def FieldError.Error (fe : FieldError) : String :=
  "Key: '" ++ fe.ns ++ "' Error:Field validation for '" ++ fe.field ++
    "' failed on the '" ++ fe.tag ++ "' tag"

/-- The method `Error()`. -/
def GoError.Error : GoError → String
  | .sentinel s => s.text
  | .new msg => msg
  | .wrap pre cause => pre ++ cause.Error
  | .sqlite _ _ msg => msg
  | .validation errs => join "\n" (errs.map FieldError.Error)

/-- The function `errors.Unwrap`. -/
def Unwrap : GoError → Option GoError
  | .wrap _ cause => some cause
  | _ => none

/-- The function `errors.Is` against a package-level variable: walk the `Unwrap`
chain and compare identities. -/
def Is : GoError → Sentinel → Bool
  | .sentinel s, target => decide (s = target)
  | .wrap _ cause, target => Is cause target
  | _, _ => false

end goerr

namespace strings

/-- The function `strings.HasPrefix`. -/
def HasPrefix (s pre : String) : Bool :=
  pre.data.isPrefixOf s.data

end strings

namespace models

/-- The struct `User` of `models/user.go`. -/
structure User where
  ID : Int
  FirstName : String
  LastName : String
  UserName : String
  Email : String
  Status : String
  Department : String
  deriving DecidableEq, Repr

end models

namespace validator

open goerr models

/-- The validator instance (`validator.New()`). The `email` tag is decided by the
library's regular expression, which is not part of this repository: it is a field. -/
structure Validate where
  isEmail : String → Bool

/-- Tag `required` on a string field: the value is not the zero value. -/
def required (s : String) : Bool :=
  decide (s ≠ "")

/-- Tag `oneof=A I T`. -/
def oneofAIT (s : String) : Bool :=
  decide (s ∈ ["A", "I", "T"])

/-- The tags of one field are run in order and the first failing tag is reported. -/
def checkField (name : String) : List (String × Bool) → List FieldError
  | [] => []
  | (tag, ok) :: rest =>
    if ok then checkField name rest
    else [{ ns := "User." ++ name, field := name, tag := tag }]

/-- The field errors of a user, in declaration order of the struct fields
(`ID` carries no `validate` tag). -/
def fieldErrors (v : Validate) (user : User) : List FieldError :=
  checkField "FirstName" [("required", required user.FirstName)] ++
  checkField "LastName" [("required", required user.LastName)] ++
  checkField "UserName" [("required", required user.UserName)] ++
  checkField "Email" [("required", required user.Email), ("email", v.isEmail user.Email)] ++
  checkField "Status" [("required", required user.Status), ("oneof", oneofAIT user.Status)] ++
  checkField "Department" [("required", required user.Department)]

/-- The call `validate.Struct(user)`: `none` is Go's `nil`. -/
def Struct (v : Validate) (user : User) : Option GoError :=
  match fieldErrors v user with
  | [] => none
  | errs => some (.validation errs)

end validator

namespace strconv

/-- The value of a decimal digit character, `none` for any other character. -/
def digit (c : Char) : Option Int :=
  if '0' ≤ c ∧ c ≤ '9' then some (Int.ofNat (c.toNat - '0'.toNat)) else none

/-- The digits read left to right onto an accumulator; `none` on a non-digit. -/
def digits : List Char → Int → Option Int
  | [], acc => some acc
  | c :: cs, acc =>
    match digit c with
    | none => none
    | some d => digits cs (acc * 10 + d)

/-- The function `strconv.Atoi` on a 64-bit platform: an optional sign, at least one
decimal digit, nothing else, and the value within the range of `int`. `none` stands
for a returned error (syntax or range). -/
def Atoi (s : String) : Option Int :=
  let body : List Char → Option Int := fun cs =>
    match cs with
    | [] => none
    | _ => digits cs 0
  let value : Option Int :=
    match s.data with
    | [] => none
    | '-' :: cs => (body cs).map (fun n => -n)
    | '+' :: cs => body cs
    | cs => body cs
  match value with
  | none => none
  | some n => if -(2 ^ 63) ≤ n ∧ n ≤ 2 ^ 63 - 1 then some n else none

end strconv

namespace sql

open goerr

/-- A value bound to a placeholder or stored in a column. -/
inductive Value where
  | int (i : Int)
  | str (s : String)
  | null
  deriving DecidableEq, Repr

/-- The interface `sql.Result`: each method returns a number and an error. -/
structure Result where
  LastInsertId : Int × Option GoError
  RowsAffected : Int × Option GoError
  deriving DecidableEq, Repr

/-- The result set of a query: the rows delivered by `Next`, and the error (if any)
that ended the iteration, as reported by `Err`. -/
structure Rows where
  rows : List (List Value)
  err : Option GoError
  deriving DecidableEq, Repr

/-- The storage behind the handle: how a statement text with its arguments is
answered, and how the storage state changes. -/
structure Driver (σ : Type) where
  exec : σ → String → List Value → Except GoError Result × σ
  query : σ → String → List Value → Except GoError Rows × σ

/-- The handle `*sql.DB` at a moment in time: the state of the storage, and the
statements sent to it so far (most recent last). -/
structure DB (σ : Type) where
  state : σ
  log : List (String × List Value)

/-- The method `DB.Exec(query, args...)`. -/
def DB.Exec {σ : Type} (drv : Driver σ) (db : DB σ) (query : String) (args : List Value) :
    Except GoError Result × DB σ :=
  let r := drv.exec db.state query args
  (r.1, { state := r.2, log := db.log ++ [(query, args)] })

/-- The method `DB.Query(query, args...)`. -/
def DB.Query {σ : Type} (drv : Driver σ) (db : DB σ) (query : String) (args : List Value) :
    Except GoError Rows × DB σ :=
  let r := drv.query db.state query args
  (r.1, { state := r.2, log := db.log ++ [(query, args)] })

/-- Conversion of a column value into an `*int` destination by `Scan`. -/
def scanInt : Value → Except GoError Int
  | .int i => .ok i
  | .str s =>
    match strconv.Atoi s with
    | some i => .ok i
    | none => .error (.new "sql: Scan error: converting driver.Value type string to a int")
  | .null => .error (.new "sql: Scan error: converting NULL to int is unsupported")

/-- Conversion of a column value into a `*string` destination by `Scan`. -/
def scanString : Value → Except GoError String
  | .str s => .ok s
  | .int i => .ok (toString i)
  | .null => .error (.new "sql: Scan error: converting NULL to string is unsupported")

end sql

namespace squirrel

open goerr sql

/-- The predicate `squirrel.Eq` with a single key. -/
structure Eq where
  key : String
  value : Value

/-- The method `Eq.ToSql` for one key: a `nil` value is tested with `IS NULL`, any other
value is bound to a placeholder. -/
def Eq.ToSql (e : Eq) : String × List Value :=
  match e.value with
  | .null => (e.key ++ " IS NULL", [])
  | v => (e.key ++ " = ?", [v])

/-- The `WHERE` parts joined with `AND`, with their arguments in order. -/
def whereToSql (parts : List Eq) : String × List Value :=
  (join " AND " (parts.map fun p => p.ToSql.1), (parts.map fun p => p.ToSql.2).flatten)

/-- The data of an insert builder after `Insert(into).Columns(...).Values(...)`. -/
structure InsertBuilder where
  Into : String
  Columns : List String
  Values : List (List Value)

/-- The data of an update builder after `Update(table).Set(...)...Where(...)`. -/
structure UpdateBuilder where
  Table : String
  SetClauses : List (String × Value)
  WhereParts : List Eq

/-- The data of a delete builder after `Delete(from).Where(...)`. -/
structure DeleteBuilder where
  From : String
  WhereParts : List Eq

/-- The data of a select builder after `Select(columns...).From(from).Where(...)`. -/
structure SelectBuilder where
  Columns : List String
  From : String
  WhereParts : List Eq

/-- One row of `VALUES`: a placeholder per value. -/
def valuesRow (row : List Value) : String :=
  "(" ++ join "," (row.map fun _ => "?") ++ ")"

/-- The method `InsertBuilder.ToSql` with the question-mark placeholder format. -/
def InsertBuilder.ToSql (b : InsertBuilder) : Except GoError (String × List Value) :=
  if b.Into = "" then
    .error (.new "insert statements must specify a table")
  else if b.Values.isEmpty then
    .error (.new "insert statements must have at least one set of values or select clause")
  else
    let cols := if b.Columns.isEmpty then "" else "(" ++ join "," b.Columns ++ ") "
    .ok ("INSERT INTO " ++ b.Into ++ " " ++ cols ++ "VALUES " ++ join "," (b.Values.map valuesRow),
         b.Values.flatten)

/-- The method `UpdateBuilder.ToSql`. -/
def UpdateBuilder.ToSql (b : UpdateBuilder) : Except GoError (String × List Value) :=
  if b.Table = "" then
    .error (.new "update statements must specify a table")
  else if b.SetClauses.isEmpty then
    .error (.new "update statements must have at least one Set clause")
  else
    let sets := join ", " (b.SetClauses.map fun c => c.1 ++ " = ?")
    let setArgs := b.SetClauses.map fun c => c.2
    let w := whereToSql b.WhereParts
    let tail := if b.WhereParts.isEmpty then "" else " WHERE " ++ w.1
    .ok ("UPDATE " ++ b.Table ++ " SET " ++ sets ++ tail, setArgs ++ w.2)

/-- The method `DeleteBuilder.ToSql`. -/
def DeleteBuilder.ToSql (b : DeleteBuilder) : Except GoError (String × List Value) :=
  if b.From = "" then
    .error (.new "delete statements must specify a From table")
  else
    let w := whereToSql b.WhereParts
    let tail := if b.WhereParts.isEmpty then "" else " WHERE " ++ w.1
    .ok ("DELETE FROM " ++ b.From ++ tail, w.2)

/-- The method `SelectBuilder.ToSql`. -/
def SelectBuilder.ToSql (b : SelectBuilder) : Except GoError (String × List Value) :=
  if b.Columns.isEmpty then
    .error (.new "select statements must have at least one result column")
  else
    let src := if b.From = "" then "" else " FROM " ++ b.From
    let w := whereToSql b.WhereParts
    let tail := if b.WhereParts.isEmpty then "" else " WHERE " ++ w.1
    .ok ("SELECT " ++ join ", " b.Columns ++ src ++ tail, w.2)

end squirrel

namespace repositories

open goerr sql models squirrel

/-- The constant `sqlite3.ErrConstraintUnique`, that is `ErrConstraint | 8<<8`
with `ErrConstraint = 19`. -/
def ErrConstraintUnique : Int := 2067

/-- The function `isUniqueConstraintViolation`: the error is a `sqlite3.Error` whose
extended code is the unique-constraint code. -/
def isUniqueConstraintViolation : GoError → Bool
  | .sqlite _ extendedCode _ => decide (extendedCode = ErrConstraintUnique)
  | _ => false

/-- The call `rows.Scan(&user.ID, &user.UserName, &user.Email, &user.FirstName,
&user.LastName, &user.Status, &user.Department)` on one row. -/
def scanUser (row : List Value) : Except GoError User :=
  match row with
  | [c0, c1, c2, c3, c4, c5, c6] =>
    match scanInt c0 with
    | .error e => .error e
    | .ok id =>
    match scanString c1 with
    | .error e => .error e
    | .ok userName =>
    match scanString c2 with
    | .error e => .error e
    | .ok email =>
    match scanString c3 with
    | .error e => .error e
    | .ok firstName =>
    match scanString c4 with
    | .error e => .error e
    | .ok lastName =>
    match scanString c5 with
    | .error e => .error e
    | .ok status =>
    match scanString c6 with
    | .error e => .error e
    | .ok department =>
      .ok { ID := id, UserName := userName, Email := email, FirstName := firstName,
            LastName := lastName, Status := status, Department := department }
  | _ => .error (.new "sql: expected 7 destination arguments in Scan")

/-- The loop `for rows.Next()` of `GetAllUsers`: the first failing `Scan` ends it. -/
def scanAll : List (List Value) → Except GoError (List User)
  | [] => .ok []
  | row :: rest =>
    match scanUser row with
    | .error e => .error e
    | .ok user =>
      match scanAll rest with
      | .error e => .error e
      | .ok users => .ok (user :: users)

/-- The builder of `GetAllUsers`. -/
def selectAll : SelectBuilder :=
  { Columns := ["id", "user_name", "email", "first_name", "last_name", "user_status",
                "department"],
    From := "users", WhereParts := [] }

/-- The builder of `CreateUser`. -/
def insertUser (user : User) : InsertBuilder :=
  { Into := "users",
    Columns := ["user_name", "email", "first_name", "last_name", "user_status", "department"],
    Values := [[.str user.UserName, .str user.Email, .str user.FirstName, .str user.LastName,
                .str user.Status, .str user.Department]] }

/-- The builder of `UpdateUser`. -/
def updateUser (user : User) : UpdateBuilder :=
  { Table := "users",
    SetClauses := [("user_name", .str user.UserName), ("email", .str user.Email),
                   ("first_name", .str user.FirstName), ("last_name", .str user.LastName),
                   ("user_status", .str user.Status), ("department", .str user.Department)],
    WhereParts := [{ key := "id", value := .int user.ID }] }

/-- The builder of `DeleteUser`. -/
def deleteUser (id : Int) : DeleteBuilder :=
  { From := "users", WhereParts := [{ key := "id", value := .int id }] }

/-- The builder of `GetUserByID`. -/
def selectByID (id : Int) : SelectBuilder :=
  { Columns := ["id", "user_name", "email", "first_name", "last_name", "user_status",
                "department"],
    From := "users", WhereParts := [{ key := "id", value := .int id }] }

variable {σ : Type}

/-- The method `UserRepository.GetAllUsers`. -/
def GetAllUsers (drv : Driver σ) (db : DB σ) : Except GoError (List User) × DB σ :=
  match selectAll.ToSql with
  | .error err => (.error err, db)
  | .ok (query, args) =>
    match DB.Query drv db query args with
    | (.error err, db1) => (.error err, db1)
    | (.ok rows, db1) => (scanAll rows.rows, db1)

/-- The method `UserRepository.CreateUser`; `v` is the package variable `validate`. -/
def CreateUser (v : validator.Validate) (drv : Driver σ) (db : DB σ) (user : User) :
    Option GoError × DB σ :=
  match validator.Struct v user with
  | some err => (some (.wrap "validation failed: " err), db)
  | none =>
    match (insertUser user).ToSql with
    | .error err => (some (.wrap "failed to build query: " err), db)
    | .ok (query, args) =>
      match DB.Exec drv db query args with
      | (.error execErr, db1) =>
        if execErr.Error = "duplicate username" ∨ isUniqueConstraintViolation execErr = true then
          (some (.wrap "" (.sentinel .ErrDuplicateUsername)), db1)
        else
          (some (.wrap "failed to execute query: " execErr), db1)
      | (.ok _, db1) => (none, db1)

/-- The method `UserRepository.UpdateUser`. -/
def UpdateUser (v : validator.Validate) (drv : Driver σ) (db : DB σ) (user : User) :
    Option GoError × DB σ :=
  match validator.Struct v user with
  | some err => (some (.wrap "validation failed: " err), db)
  | none =>
    match (updateUser user).ToSql with
    | .error err => (some err, db)
    | .ok (query, args) =>
      match DB.Exec drv db query args with
      | (.error err, db1) => (some err, db1)
      | (.ok result, db1) =>
        match result.RowsAffected with
        | (_, some err) => (some err, db1)
        | (rowsAffected, none) =>
          if rowsAffected = 0 then (some (.new "user not found"), db1)
          else (none, db1)

/-- The method `UserRepository.DeleteUser`. -/
def DeleteUser (drv : Driver σ) (db : DB σ) (id : Int) : Option GoError × DB σ :=
  match (deleteUser id).ToSql with
  | .error err => (some err, db)
  | .ok (query, args) =>
    match DB.Exec drv db query args with
    | (.error execErr, db1) => (some execErr, db1)
    | (.ok res, db1) =>
      if res.RowsAffected.1 = 0 then (some (.new "no rows affected"), db1)
      else (none, db1)

/-- The method `UserRepository.GetUserByID`. -/
def GetUserByID (drv : Driver σ) (db : DB σ) (id : Int) : Except GoError User × DB σ :=
  match (selectByID id).ToSql with
  | .error err => (.error err, db)
  | .ok (query, args) =>
    match DB.Query drv db query args with
    | (.error err, db1) => (.error err, db1)
    | (.ok rows, db1) =>
      match rows.rows with
      | row :: _ =>
        match scanUser row with
        | .error err => (.error err, db1)
        | .ok user => (.ok user, db1)
      | [] =>
        match rows.err with
        | some err => (.error err, db1)
        | none => (.error (.new ("user with id " ++ toString id ++ " not found")), db1)

end repositories

namespace services

open goerr sql models

variable {σ : Type}

/-- The method `UserService.GetAllUsers`. -/
def GetAllUsers (drv : Driver σ) (db : DB σ) : Except GoError (List User) × DB σ :=
  repositories.GetAllUsers drv db

/-- The method `UserService.CreateUser`. -/
def CreateUser (v : validator.Validate) (drv : Driver σ) (db : DB σ) (user : User) :
    Option GoError × DB σ :=
  repositories.CreateUser v drv db user

/-- The method `UserService.UpdateUser`. -/
def UpdateUser (v : validator.Validate) (drv : Driver σ) (db : DB σ) (user : User) :
    Option GoError × DB σ :=
  repositories.UpdateUser v drv db user

/-- The method `UserService.DeleteUser`. -/
def DeleteUser (drv : Driver σ) (db : DB σ) (id : Int) : Option GoError × DB σ :=
  repositories.DeleteUser drv db id

end services

namespace controllers

open goerr sql models

/-- What a handler reads from the `echo.Context`: the path parameters, and the outcome
of `c.Bind(&user)` on the request (the bound user, or the binding error). -/
structure Context where
  Param : String → String
  Bind : Except GoError User

/-- The value serialised by `c.JSON`. -/
inductive Body where
  /-- the map with the single key `error` -/
  | error (msg : String)
  | user (u : User)
  | users (us : List User)
  | null
  deriving DecidableEq, Repr

/-- What a handler produces: a response written with `c.JSON(code, body)` (the handler
then returns what the write returns, `nil` on a working connection), or a returned
`*echo.HTTPError` built by `echo.NewHTTPError(code, message)`. -/
inductive Response where
  | JSON (code : Nat) (body : Body)
  | HTTPError (code : Nat) (message : String)
  deriving DecidableEq, Repr

def StatusOK : Nat := 200
def StatusCreated : Nat := 201
def StatusNoContent : Nat := 204
def StatusBadRequest : Nat := 400
def StatusNotFound : Nat := 404
def StatusConflict : Nat := 409
def StatusInternalServerError : Nat := 500

variable {σ : Type}

/-- The handler `GetUsers`. -/
def GetUsers (drv : Driver σ) (db : DB σ) (_c : Context) : Response × DB σ :=
  match services.GetAllUsers drv db with
  | (.error _, db1) => (.JSON StatusInternalServerError (.error "Failed to fetch users"), db1)
  | (.ok users, db1) => (.JSON StatusOK (.users users), db1)

/-- The handler `CreateUser`. -/
def CreateUser (v : validator.Validate) (drv : Driver σ) (db : DB σ) (c : Context) :
    Response × DB σ :=
  match c.Bind with
  | .error _ => (.JSON StatusBadRequest (.error "Invalid input"), db)
  | .ok user =>
    match services.CreateUser v drv db user with
    | (some err, db1) =>
      if err.Error = "duplicate username" then
        (.HTTPError StatusConflict "username already exists", db1)
      else if strings.HasPrefix err.Error "validation failed:" = true then
        (.HTTPError StatusBadRequest "Invalid input", db1)
      else
        (.HTTPError StatusInternalServerError "failed to create user", db1)
    | (none, db1) => (.JSON StatusCreated (.user user), db1)

/-- The handler `DeleteUser`. -/
def DeleteUser (drv : Driver σ) (db : DB σ) (c : Context) : Response × DB σ :=
  match strconv.Atoi (c.Param "id") with
  | none => (.JSON StatusBadRequest (.error "Invalid user ID"), db)
  | some userID =>
    match services.DeleteUser drv db userID with
    | (some err, db1) =>
      if err.Error = "user not found" then
        (.JSON StatusNotFound (.error "User not found"), db1)
      else
        (.JSON StatusInternalServerError (.error "Failed to delete user"), db1)
    | (none, db1) => (.JSON StatusNoContent .null, db1)

/-- The handler `UpdateUser`. -/
def UpdateUser (v : validator.Validate) (drv : Driver σ) (db : DB σ) (c : Context) :
    Response × DB σ :=
  match c.Bind with
  | .error _ => (.JSON StatusBadRequest (.error "Invalid input"), db)
  | .ok user =>
    if user.UserName = "" ∨ user.Email = "" then
      (.JSON StatusBadRequest (.error "Invalid input"), db)
    else
      match services.UpdateUser v drv db user with
      | (some err, db1) =>
        if err.Error = "user not found" then
          (.JSON StatusNotFound (.error "User not found"), db1)
        else
          (.JSON StatusInternalServerError (.error "Failed to create user"), db1)
      | (none, db1) => (.JSON StatusOK (.user user), db1)

end controllers

namespace sqlmock

open goerr sql

/-- The result `sqlmock.NewResult(lastInsertID, rowsAffected)`. -/
def NewResult (lastInsertID rowsAffected : Int) : Result :=
  { LastInsertId := (lastInsertID, none), RowsAffected := (rowsAffected, none) }

/-- A storage that answers every `Exec` and every `Query` with a canned outcome and
has no state, as the expectations of the test-suite do. -/
def driver (execOutcome : Except GoError Result) (queryOutcome : Except GoError Rows) :
    Driver Unit :=
  { exec := fun s _ _ => (execOutcome, s),
    query := fun s _ _ => (queryOutcome, s) }

/-- A fresh handle on a mocked storage. -/
def New : DB Unit := { state := (), log := [] }

end sqlmock

namespace sqlite

open goerr sql

/-- A stored row: named columns with their values. -/
abbrev Row := List (String × Value)

/-- The `users` table: its rows in storage order. -/
abbrev Table := List Row

/-- The columns of `users` that hold user data. -/
def dataColumns : List String :=
  ["user_name", "email", "first_name", "last_name", "user_status", "department"]

/-- All columns of `users`; `id` is the integer primary key. -/
def columns : List String := "id" :: dataColumns

/-- The statements the engine understands. -/
inductive Stmt where
  | insert (table : String) (cols : List String) (placeholders : Nat)
  | select (cols : List String) (table : String) (whereCol : Option String)
  | update (table : String) (cols : List String) (whereCol : Option String)
  | delete (table : String) (whereCol : Option String)
  deriving DecidableEq, Repr

/-- The pending word, if any, as a token. -/
def flush (cur : List Char) : List String :=
  if cur.isEmpty then [] else [String.mk cur.reverse]

/-- Splits a statement into words and the punctuation `( ) , ? =`; blanks separate. -/
def tokenize : List Char → List Char → List String
  | [], cur => flush cur
  | c :: cs, cur =>
    if c = ' ' then flush cur ++ tokenize cs []
    else if c = '(' ∨ c = ')' ∨ c = ',' ∨ c = '?' ∨ c = '=' then
      flush cur ++ [String.mk [c]] ++ tokenize cs []
    else tokenize cs (c :: cur)

/-- A comma-separated list of items closed by the token `stop`; returns the items and
the tokens after `stop`. -/
def itemList (stop : String) : List String → Option (List String × List String)
  | [] => none
  | [_] => none
  | t :: s :: rest =>
    if s = stop then some ([t], rest)
    else if s = "," then (itemList stop rest).map fun r => (t :: r.1, r.2)
    else none

/-- A comma-separated list of assignments `column = ?`; returns the columns and the
tokens that follow. -/
def setList : List String → Option (List String × List String)
  | c :: e :: q :: rest =>
    if e = "=" ∧ q = "?" then
      match rest with
      | [] => some ([c], [])
      | s :: rest2 =>
        if s = "," then (setList rest2).map fun r => (c :: r.1, r.2)
        else some ([c], s :: rest2)
    else none
  | _ => none

/-- An optional clause `WHERE column = ?` ending the statement. -/
def whereClause : List String → Option (Option String)
  | [] => some none
  | [w, c, e, q] => if w = "WHERE" ∧ e = "=" ∧ q = "?" then some (some c) else none
  | _ => none

/-- The statement denoted by a token list. -/
def parseTokens : List String → Option Stmt
  | "INSERT" :: "INTO" :: table :: "(" :: rest =>
    match itemList ")" rest with
    | some (cols, "VALUES" :: "(" :: rest2) =>
      match itemList ")" rest2 with
      | some (marks, []) =>
        if marks.all (fun m => m = "?") then some (.insert table cols marks.length) else none
      | _ => none
    | _ => none
  | "SELECT" :: rest =>
    match itemList "FROM" rest with
    | some (cols, table :: rest2) => (whereClause rest2).map fun w => .select cols table w
    | _ => none
  | "UPDATE" :: table :: "SET" :: rest =>
    match setList rest with
    | some (cols, rest2) => (whereClause rest2).map fun w => .update table cols w
    | none => none
  | "DELETE" :: "FROM" :: table :: rest =>
    (whereClause rest).map fun w => .delete table w
  | _ => none

/-- The statement denoted by a statement text. -/
def parse (text : String) : Option Stmt :=
  parseTokens (tokenize text.data [])

/-- The identifier of a row (0 when the row has no integer `id`). -/
def rowId (r : Row) : Int :=
  match r.lookup "id" with
  | some (.int i) => i
  | _ => 0

/-- The largest identifier in use, 0 for the empty table. -/
def maxId : Table → Int
  | [] => 0
  | r :: rs => max (rowId r) (maxId rs)

/-- The identifier the storage assigns to the next inserted row: one more than the
largest identifier in use. -/
def nextRowId (t : Table) : Int := maxId t + 1

/-- The test `column = value` on a row; a comparison with `NULL` is never true. -/
def rowMatches (col : String) (a : Value) (r : Row) : Bool :=
  decide (a ≠ .null) && decide (r.lookup col = some a)

/-- The rows selected by an optional `WHERE column = ?` and its bound arguments;
`none` when the number of arguments does not fit. -/
def selector (whereCol : Option String) (args : List Value) : Option (Row → Bool) :=
  match whereCol, args with
  | none, [] => some fun _ => true
  | some col, [a] => some (rowMatches col a)
  | _, _ => none

/-- The values of the named columns of a row (`NULL` for a column the row lacks). -/
def project (cols : List String) (r : Row) : List Value :=
  cols.map fun c => (r.lookup c).getD .null

/-- The error of a violated `UNIQUE` constraint on `users.user_name`. -/
def uniqueUserName : GoError :=
  .sqlite 19 2067 "UNIQUE constraint failed: users.user_name"

/-- A generic statement error (`SQLITE_ERROR`). -/
def sqlError (msg : String) : GoError := .sqlite 1 1 msg

/-- The row stored for an identifier and the values given for some data columns. -/
def newRow (id : Int) (given : List (String × Value)) : Row :=
  ("id", .int id) :: dataColumns.map fun c => (c, (given.lookup c).getD .null)

/-- Execution of `INSERT INTO users (cols) VALUES (?, ...)`. -/
def execInsert (t : Table) (cols : List String) (placeholders : Nat) (args : List Value) :
    Except GoError Result × Table :=
  if cols.length ≠ placeholders ∨ placeholders ≠ args.length then
    (.error (sqlError "wrong number of values"), t)
  else if ¬ (cols.all fun c => decide (c ∈ dataColumns)) then
    (.error (sqlError "table users has no such data column"), t)
  else
    let given := cols.zip args
    let userName := (given.lookup "user_name").getD .null
    if t.any (rowMatches "user_name" userName) then (.error uniqueUserName, t)
    else
      let id := nextRowId t
      (.ok { LastInsertId := (id, none), RowsAffected := (1, none) }, t ++ [newRow id given])

/-- A row with the given columns overwritten. -/
def assign (given : List (String × Value)) (r : Row) : Row :=
  r.map fun cv => (cv.1, (given.lookup cv.1).getD cv.2)

/-- Execution of `UPDATE users SET col = ?, ... [WHERE col = ?]`. -/
def execUpdate (t : Table) (cols : List String) (whereCol : Option String)
    (args : List Value) : Except GoError Result × Table :=
  if ¬ (cols.all fun c => decide (c ∈ dataColumns)) then
    (.error (sqlError "no such column"), t)
  else
    match selector whereCol (args.drop cols.length) with
    | none => (.error (sqlError "wrong number of arguments"), t)
    | some sel =>
      let given := cols.zip args
      let hit := t.filter sel
      let rest := t.filter fun r => !sel r
      match given.lookup "user_name" with
      | some name =>
        if hit ≠ [] ∧ (rest.any (rowMatches "user_name" name) ∨
            (decide (name ≠ .null) && decide (1 < hit.length)) = true) then
          (.error uniqueUserName, t)
        else
          (.ok { LastInsertId := (0, none), RowsAffected := (hit.length, none) },
           t.map fun r => if sel r then assign given r else r)
      | none =>
        (.ok { LastInsertId := (0, none), RowsAffected := (hit.length, none) },
         t.map fun r => if sel r then assign given r else r)

/-- Execution of `DELETE FROM users [WHERE col = ?]`. -/
def execDelete (t : Table) (whereCol : Option String) (args : List Value) :
    Except GoError Result × Table :=
  match selector whereCol args with
  | none => (.error (sqlError "wrong number of arguments"), t)
  | some sel =>
    (.ok { LastInsertId := (0, none), RowsAffected := ((t.filter sel).length, none) },
     t.filter fun r => !sel r)

/-- Execution of `SELECT cols FROM users [WHERE col = ?]`. -/
def execSelect (t : Table) (cols : List String) (whereCol : Option String)
    (args : List Value) : Except GoError Rows × Table :=
  if ¬ (cols.all fun c => decide (c ∈ columns)) then
    (.error (sqlError "no such column"), t)
  else
    match selector whereCol args with
    | none => (.error (sqlError "wrong number of arguments"), t)
    | some sel => (.ok { rows := (t.filter sel).map (project cols), err := none }, t)

/-- The storage engine behind the handle: a single table `users`. -/
def driver : Driver Table :=
  { exec := fun t text args =>
      match parse text with
      | some (.insert table cols n) =>
        if table = "users" then execInsert t cols n args
        else (.error (sqlError "no such table"), t)
      | some (.update table cols w) =>
        if table = "users" then execUpdate t cols w args
        else (.error (sqlError "no such table"), t)
      | some (.delete table w) =>
        if table = "users" then execDelete t w args
        else (.error (sqlError "no such table"), t)
      | _ => (.error (sqlError "syntax error"), t),
    query := fun t text args =>
      match parse text with
      | some (.select cols table w) =>
        if table = "users" then execSelect t cols w args
        else (.error (sqlError "no such table"), t)
      | _ => (.error (sqlError "syntax error"), t) }

end sqlite

namespace statements

open sql models

/-- The text of the `INSERT` of `CreateUser`. -/
def insertText : String :=
  "INSERT INTO users (user_name,email,first_name,last_name,user_status,department) VALUES (?,?,?,?,?,?)"

/-- The text of the `UPDATE` of `UpdateUser`. -/
def updateText : String :=
  "UPDATE users SET user_name = ?, email = ?, first_name = ?, last_name = ?, user_status = ?, department = ? WHERE id = ?"

/-- The text of the `DELETE` of `DeleteUser`. -/
def deleteText : String := "DELETE FROM users WHERE id = ?"

/-- The text of the `SELECT` of `GetUserByID`. -/
def selectByIDText : String :=
  "SELECT id, user_name, email, first_name, last_name, user_status, department FROM users WHERE id = ?"

/-- The text of the `SELECT` of `GetAllUsers`. -/
def selectAllText : String :=
  "SELECT id, user_name, email, first_name, last_name, user_status, department FROM users"

/-- The six data fields of a user in the order user name, email, first name, last name,
status, department. -/
def userArgs (user : User) : List Value :=
  [.str user.UserName, .str user.Email, .str user.FirstName, .str user.LastName,
   .str user.Status, .str user.Department]

end statements

namespace spec

open goerr

/-- The storage reports a uniqueness violation on the column `user_name`: a SQLite
error with the unique-constraint extended code whose text names `users.user_name`. -/
def isUserNameUniqueViolation : GoError → Bool
  | .sqlite _ extendedCode msg =>
    decide (extendedCode = repositories.ErrConstraintUnique) &&
      decide (msg = "UNIQUE constraint failed: users.user_name")
  | _ => false

end spec

namespace fixtures

open goerr sql models

/-- A validator whose `email` tag asks for an `@` with text on both sides. -/
def validate : validator.Validate :=
  { isEmail := fun s =>
      match s.data.splitOn '@' with
      | [a, b] => !a.isEmpty && !b.isEmpty
      | _ => false }

/-- The user of the test-suite. -/
def john : User :=
  { ID := 0, FirstName := "John", LastName := "Doe", UserName := "john_doe",
    Email := "john@example.com", Status := "A", Department := "IT" }

/-- A second user with another user name. -/
def jane : User :=
  { ID := 0, FirstName := "Jane", LastName := "Roe", UserName := "jane_roe",
    Email := "jane@example.com", Status := "I", Department := "HR" }

/-- The fully valid user with identifier 999 of the update tests. -/
def updated : User :=
  { ID := 999, FirstName := "Updated", LastName := "User", UserName := "updated_user",
    Email := "updated_email@example.com", Status := "A", Department := "IT" }

/-- A user with a status outside the enumeration. -/
def badStatus : User := { updated with ID := 1, Status := "X" }

/-- The user a body without any known key binds to: every field is the zero value. -/
def zero : User :=
  { ID := 0, FirstName := "", LastName := "", UserName := "", Email := "", Status := "",
    Department := "" }

/-- A request context with the path parameter `id` and a bound user. -/
def context (id : String) (user : User) : controllers.Context :=
  { Param := fun name => if name = "id" then id else "", Bind := .ok user }

/-- A handle on the empty `users` table. -/
def emptyDB : DB sqlite.Table := { state := [], log := [] }

/-- A handle on a table that holds `john` under identifier 1. -/
def johnDB : DB sqlite.Table :=
  { state := [sqlite.newRow 1 (sqlite.dataColumns.zip (statements.userArgs john))], log := [] }

/-- A uniqueness violation reported for the column `email`. -/
def emailUnique : GoError := .sqlite 19 2067 "UNIQUE constraint failed: users.email"

/-- A storage failure that is no constraint violation. -/
def diskFull : GoError := .sqlite 13 13 "database or disk is full"

end fixtures

/-! ## Auxiliary facts -/

namespace strings

theorem HasPrefix_iff (s pre : String) : HasPrefix s pre = true ↔ pre.data <+: s.data := by
  unfold HasPrefix
  exact List.isPrefixOf_iff_prefix

theorem HasPrefix_append (pre rest : String) : HasPrefix (pre ++ rest) pre = true := by
  rw [HasPrefix_iff, String.data_append]
  exact List.prefix_append _ _

theorem HasPrefix_trans {s p q : String} (h₁ : HasPrefix s p = true)
    (h₂ : HasPrefix p q = true) : HasPrefix s q = true := by
  rw [HasPrefix_iff] at *
  exact h₂.trans h₁

/-- Two prefixes of one string are comparable. -/
theorem HasPrefix_false_of_incomparable {s p q : String} (h : HasPrefix s p = true)
    (hpq : HasPrefix p q = false) (hqp : HasPrefix q p = false) : HasPrefix s q = false := by
  cases hsq : HasPrefix s q with
  | false => rfl
  | true =>
    rw [HasPrefix_iff] at h hsq
    rcases List.prefix_or_prefix_of_prefix h hsq with h' | h'
    · rw [← HasPrefix_iff] at h'
      rw [h'] at hqp
      cases hqp
    · rw [← HasPrefix_iff] at h'
      rw [h'] at hpq
      cases hpq

theorem ne_of_HasPrefix {s t p : String} (h : HasPrefix s p = true)
    (ht : HasPrefix t p = false) : s ≠ t := by
  intro hst
  rw [hst, ht] at h
  cases h

end strings

namespace validator

open goerr models

theorem checkField_eq_nil (name : String) (tags : List (String × Bool)) :
    checkField name tags = [] ↔ ∀ t ∈ tags, t.2 = true := by
  induction tags with
  | nil => simp [checkField]
  | cons t rest ih =>
    obtain ⟨tag, ok⟩ := t
    cases ok <;> simp [checkField, ih]

theorem fieldErrors_eq_nil_iff (v : Validate) (u : User) :
    fieldErrors v u = [] ↔
      (u.FirstName ≠ "" ∧ u.LastName ≠ "" ∧ u.UserName ≠ "" ∧ u.Email ≠ "" ∧
        v.isEmail u.Email = true ∧ u.Status ≠ "" ∧ u.Status ∈ ["A", "I", "T"] ∧
        u.Department ≠ "") := by
  simp only [fieldErrors, List.append_eq_nil, checkField_eq_nil, required, oneofAIT,
    List.forall_mem_cons, List.not_mem_nil, false_imp_iff, forall_const, and_true,
    IsEmpty.forall_iff, implies_true, decide_eq_true_eq, ne_eq, and_assoc]

/-- A user passes `validate.Struct` exactly when every tag of every field holds. -/
theorem Struct_eq_none_iff (v : Validate) (u : User) :
    Struct v u = none ↔
      (u.FirstName ≠ "" ∧ u.LastName ≠ "" ∧ u.UserName ≠ "" ∧ u.Email ≠ "" ∧
        v.isEmail u.Email = true ∧ u.Status ≠ "" ∧ u.Status ∈ ["A", "I", "T"] ∧
        u.Department ≠ "") := by
  rw [← fieldErrors_eq_nil_iff]
  unfold Struct
  cases fieldErrors v u <;> simp

/-- A failed validation is reported as a `ValidationErrors` value. -/
theorem Struct_eq_some (v : Validate) (u : User) (h : Struct v u ≠ none) :
    ∃ errs, Struct v u = some (.validation errs) := by
  unfold Struct at *
  cases hfe : fieldErrors v u with
  | nil => rw [hfe] at h; exact absurd rfl h
  | cons a l => exact ⟨a :: l, rfl⟩

end validator

namespace repositories

open goerr sql models squirrel statements

variable {σ : Type}

theorem insertUser_ToSql (u : User) :
    (insertUser u).ToSql = .ok (insertText, userArgs u) := rfl

theorem updateUser_ToSql (u : User) :
    (updateUser u).ToSql = .ok (updateText, userArgs u ++ [.int u.ID]) := rfl

theorem deleteUser_ToSql (id : Int) :
    (deleteUser id).ToSql = .ok (deleteText, [.int id]) := rfl

theorem selectByID_ToSql (id : Int) :
    (selectByID id).ToSql = .ok (selectByIDText, [.int id]) := rfl

theorem selectAll_ToSql : selectAll.ToSql = .ok (selectAllText, []) := rfl

theorem CreateUser_of_invalid (v : validator.Validate) (drv : Driver σ) (db : DB σ) (u : User)
    (e : GoError) (h : validator.Struct v u = some e) :
    CreateUser v drv db u = (some (.wrap "validation failed: " e), db) := by
  simp only [CreateUser, h]

theorem UpdateUser_of_invalid (v : validator.Validate) (drv : Driver σ) (db : DB σ) (u : User)
    (e : GoError) (h : validator.Struct v u = some e) :
    UpdateUser v drv db u = (some (.wrap "validation failed: " e), db) := by
  simp only [UpdateUser, h]

theorem CreateUser_of_exec_error (v : validator.Validate) (drv : Driver σ) (db : DB σ)
    (u : User) (e : GoError) (s : σ) (hv : validator.Struct v u = none)
    (he : drv.exec db.state insertText (userArgs u) = (.error e, s)) :
    CreateUser v drv db u =
      (if e.Error = "duplicate username" ∨ isUniqueConstraintViolation e = true then
          some (.wrap "" (.sentinel .ErrDuplicateUsername))
        else some (.wrap "failed to execute query: " e),
       { state := s, log := db.log ++ [(insertText, userArgs u)] }) := by
  simp only [CreateUser, hv, insertUser_ToSql, DB.Exec, he]
  split <;> rfl

theorem CreateUser_of_exec_ok (v : validator.Validate) (drv : Driver σ) (db : DB σ)
    (u : User) (r : Result) (s : σ) (hv : validator.Struct v u = none)
    (he : drv.exec db.state insertText (userArgs u) = (.ok r, s)) :
    CreateUser v drv db u =
      (none, { state := s, log := db.log ++ [(insertText, userArgs u)] }) := by
  simp only [CreateUser, hv, insertUser_ToSql, DB.Exec, he]

theorem UpdateUser_of_exec_ok (v : validator.Validate) (drv : Driver σ) (db : DB σ)
    (u : User) (r : Result) (s : σ) (hv : validator.Struct v u = none)
    (he : drv.exec db.state updateText (userArgs u ++ [.int u.ID]) = (.ok r, s)) :
    UpdateUser v drv db u =
      (match r.RowsAffected with
        | (_, some err) => some err
        | (n, none) => if n = 0 then some (.new "user not found") else none,
       { state := s, log := db.log ++ [(updateText, userArgs u ++ [.int u.ID])] }) := by
  simp only [UpdateUser, hv, updateUser_ToSql, DB.Exec, he]
  rcases r.RowsAffected with ⟨n, _ | err⟩
  · simp only
    split <;> rfl
  · rfl

theorem DeleteUser_of_exec_ok (drv : Driver σ) (db : DB σ) (id : Int) (r : Result) (s : σ)
    (he : drv.exec db.state deleteText [.int id] = (.ok r, s)) :
    DeleteUser drv db id =
      (if r.RowsAffected.1 = 0 then some (.new "no rows affected") else none,
       { state := s, log := db.log ++ [(deleteText, [.int id])] }) := by
  simp only [DeleteUser, deleteUser_ToSql, DB.Exec, he]
  split <;> rfl

theorem GetUserByID_of_row (drv : Driver σ) (db : DB σ) (id : Int) (row : List Value)
    (more : List (List Value)) (err : Option GoError) (s : σ) (u : User)
    (hq : drv.query db.state selectByIDText [.int id] = (.ok { rows := row :: more, err := err }, s))
    (hs : scanUser row = .ok u) :
    GetUserByID drv db id =
      (.ok u, { state := s, log := db.log ++ [(selectByIDText, [.int id])] }) := by
  simp only [GetUserByID, selectByID_ToSql, DB.Query, hq, hs]

end repositories

namespace repositories

open goerr

theorem isUniqueConstraintViolation_iff (e : GoError) :
    isUniqueConstraintViolation e = true ↔
      ∃ code msg, e = .sqlite code ErrConstraintUnique msg := by
  cases e with
  | sqlite code ext msg =>
    simp only [isUniqueConstraintViolation, decide_eq_true_eq, GoError.sqlite.injEq]
    constructor
    · intro h; exact ⟨code, msg, rfl, h, rfl⟩
    · rintro ⟨_, _, _, h, _⟩; exact h
  | _ => simp [isUniqueConstraintViolation]

end repositories

namespace sqlite

open goerr sql models statements

theorem parse_insertText : parse insertText = some (.insert "users" dataColumns 6) := rfl

theorem parse_selectByIDText :
    parse selectByIDText = some (.select columns "users" (some "id")) := rfl

theorem rowId_le_maxId {t : Table} {r : Row} (h : r ∈ t) : rowId r ≤ maxId t := by
  induction t with
  | nil => cases h
  | cons a rest ih =>
    rcases List.mem_cons.1 h with rfl | h'
    · exact le_max_left _ _
    · exact le_trans (ih h') (le_max_right _ _)

/-- No stored row carries the identifier that is assigned next. -/
theorem rowMatches_nextRowId {t : Table} {r : Row} (h : r ∈ t) :
    rowMatches "id" (.int (nextRowId t)) r = false := by
  have hle := rowId_le_maxId h
  cases hm : rowMatches "id" (.int (nextRowId t)) r with
  | false => rfl
  | true =>
    simp only [rowMatches, Bool.and_eq_true, decide_eq_true_eq] at hm
    have hid : rowId r = nextRowId t := by simp only [rowId, hm.2]
    rw [hid] at hle
    unfold nextRowId at hle
    omega

/-- The row stored for a user is found under its identifier. -/
theorem rowMatches_newRow (id : Int) (given : List (String × Value)) :
    rowMatches "id" (.int id) (newRow id given) = true := by
  simp [rowMatches, newRow, List.lookup]

theorem filter_append_newRow (t : Table) (given : List (String × Value)) :
    (t ++ [newRow (nextRowId t) given]).filter (rowMatches "id" (.int (nextRowId t)))
      = [newRow (nextRowId t) given] := by
  rw [List.filter_append]
  have h1 : t.filter (rowMatches "id" (.int (nextRowId t))) = [] := by
    rw [List.filter_eq_nil_iff]
    intro r hr
    rw [rowMatches_nextRowId hr]
    exact Bool.false_ne_true
  rw [h1, List.nil_append, List.filter_cons, rowMatches_newRow]
  rfl

theorem project_newRow (id : Int) (u : User) :
    project columns (newRow id (dataColumns.zip (userArgs u)))
      = [.int id, .str u.UserName, .str u.Email, .str u.FirstName, .str u.LastName,
         .str u.Status, .str u.Department] := rfl

/-- The `INSERT` of a user whose name no stored row carries appends one row under the
identifier assigned next. -/
theorem exec_insert_fresh (t : Table) (u : User)
    (hfresh : ∀ r ∈ t, r.lookup "user_name" ≠ some (.str u.UserName)) :
    driver.exec t insertText (userArgs u) =
      (.ok { LastInsertId := (nextRowId t, none), RowsAffected := (1, none) },
       t ++ [newRow (nextRowId t) (dataColumns.zip (userArgs u))]) := by
  have hany : t.any (rowMatches "user_name" (.str u.UserName)) = false := by
    rw [List.any_eq_false]
    intro r hr
    simp [rowMatches, hfresh r hr]
  have hlook : ((dataColumns.zip (userArgs u)).lookup "user_name").getD .null
      = .str u.UserName := rfl
  have hlen : ¬ (dataColumns.length ≠ 6 ∨ 6 ≠ (userArgs u).length) := by
    simp [dataColumns, userArgs]
  have hcols : ¬ ¬ (dataColumns.all fun c => decide (c ∈ dataColumns)) = true := by decide
  simp only [driver, parse_insertText, if_true, execInsert, if_neg hlen, if_neg hcols,
    hlook, hany, Bool.false_eq_true, if_false]

/-- The by-id `SELECT` of the identifier just assigned delivers the inserted row. -/
theorem query_selectByID_new (t : Table) (u : User) :
    driver.query (t ++ [newRow (nextRowId t) (dataColumns.zip (userArgs u))])
        selectByIDText [.int (nextRowId t)] =
      (.ok { rows := [[.int (nextRowId t), .str u.UserName, .str u.Email, .str u.FirstName,
                       .str u.LastName, .str u.Status, .str u.Department]],
             err := none },
       t ++ [newRow (nextRowId t) (dataColumns.zip (userArgs u))]) := by
  have hcols : ¬ ¬ (columns.all fun c => decide (c ∈ columns)) = true := by decide
  simp only [driver, parse_selectByIDText, if_true, execSelect, if_neg hcols, selector,
    filter_append_newRow, List.map_cons, List.map_nil, project_newRow]

end sqlite

namespace controllers

open goerr sql models statements

variable {σ : Type}

/-- The message of a wrapped validation error is none of the texts the handlers compare
with, and it carries the validation marker. -/
theorem validation_message (e : GoError) :
    (GoError.wrap "validation failed: " e).Error ≠ "duplicate username" ∧
    (GoError.wrap "validation failed: " e).Error ≠ "user not found" ∧
    strings.HasPrefix (GoError.wrap "validation failed: " e).Error "validation failed:" = true := by
  have h : strings.HasPrefix (GoError.wrap "validation failed: " e).Error
      "validation failed: " = true := strings.HasPrefix_append _ _
  exact ⟨strings.ne_of_HasPrefix h (by decide), strings.ne_of_HasPrefix h (by decide),
    strings.HasPrefix_trans h (by decide)⟩

/-- The message of a wrapped execution failure is none of the texts the create handler
looks for. -/
theorem exec_failure_message (e : GoError) :
    (GoError.wrap "failed to execute query: " e).Error ≠ "duplicate username" ∧
    strings.HasPrefix (GoError.wrap "failed to execute query: " e).Error
      "validation failed:" = false := by
  have h : strings.HasPrefix (GoError.wrap "failed to execute query: " e).Error
      "failed to execute query: " = true := strings.HasPrefix_append _ _
  exact ⟨strings.ne_of_HasPrefix h (by decide),
    strings.HasPrefix_false_of_incomparable h (by decide) (by decide)⟩

theorem CreateUser_of_service (v : validator.Validate) (drv : Driver σ) (db db1 : DB σ)
    (c : Context) (u : User) (r : Option GoError) (hb : c.Bind = .ok u)
    (hs : services.CreateUser v drv db u = (r, db1)) :
    CreateUser v drv db c =
      (match r with
        | some err =>
          if err.Error = "duplicate username" then
            .HTTPError StatusConflict "username already exists"
          else if strings.HasPrefix err.Error "validation failed:" = true then
            .HTTPError StatusBadRequest "Invalid input"
          else .HTTPError StatusInternalServerError "failed to create user"
        | none => .JSON StatusCreated (.user u), db1) := by
  simp only [CreateUser, hb, hs]
  cases r with
  | none => rfl
  | some err => simp only; split_ifs <;> rfl

theorem UpdateUser_of_service (v : validator.Validate) (drv : Driver σ) (db db1 : DB σ)
    (c : Context) (u : User) (r : Option GoError) (hb : c.Bind = .ok u)
    (hn : u.UserName ≠ "") (hm : u.Email ≠ "")
    (hs : services.UpdateUser v drv db u = (r, db1)) :
    UpdateUser v drv db c =
      (match r with
        | some err =>
          if err.Error = "user not found" then .JSON StatusNotFound (.error "User not found")
          else .JSON StatusInternalServerError (.error "Failed to create user")
        | none => .JSON StatusOK (.user u), db1) := by
  simp only [UpdateUser, hb, hn, hm, or_self, if_false, hs]
  cases r with
  | none => rfl
  | some err => simp only; split_ifs <;> rfl

theorem DeleteUser_of_service (drv : Driver σ) (db db1 : DB σ) (c : Context) (id : Int)
    (r : Option GoError) (hp : strconv.Atoi (c.Param "id") = some id)
    (hs : services.DeleteUser drv db id = (r, db1)) :
    DeleteUser drv db c =
      (match r with
        | some err =>
          if err.Error = "user not found" then .JSON StatusNotFound (.error "User not found")
          else .JSON StatusInternalServerError (.error "Failed to delete user")
        | none => .JSON StatusNoContent .null, db1) := by
  simp only [DeleteUser, hp, hs]
  cases r with
  | none => rfl
  | some err => simp only; split_ifs <;> rfl

end controllers


namespace controllers

open goerr sql models statements

variable {σ : Type}

/-- A valid user makes `UpdateUser` of the repository send exactly one statement: the
`UPDATE` whose last argument is the identifier field of that user. -/
theorem UpdateUser_log_of_valid (v : validator.Validate) (drv : Driver σ) (db : DB σ)
    (u : User) (hv : validator.Struct v u = none) :
    (repositories.UpdateUser v drv db u).2.log =
      db.log ++ [(updateText, userArgs u ++ [.int u.ID])] := by
  rcases hx : drv.exec db.state updateText (userArgs u ++ [.int u.ID]) with ⟨r | r, s⟩
  · simp only [repositories.UpdateUser, hv, repositories.updateUser_ToSql, DB.Exec, hx]
  · rw [repositories.UpdateUser_of_exec_ok v drv db u r s hv hx]

/-- The handle the Update handler returns for a bound user with a user name and an email
is the handle the service returns. -/
theorem UpdateUser_handle (v : validator.Validate) (drv : Driver σ) (db : DB σ)
    (c : Context) (u : User) (hb : c.Bind = .ok u) (hn : u.UserName ≠ "")
    (hm : u.Email ≠ "") :
    (UpdateUser v drv db c).2 = (services.UpdateUser v drv db u).2 := by
  rw [UpdateUser_of_service v drv db (services.UpdateUser v drv db u).2 c u
    (services.UpdateUser v drv db u).1 hb hn hm rfl]

end controllers
/-! ## The claims -/

namespace claims

open goerr sql models statements

variable {σ : Type}

/-- C1 (the code departs from the claim): whenever the `DELETE` executes without error
and reports zero affected rows, `DeleteUser` of the repository fails with the message
"no rows affected", which is not the not-found message "user not found", and the Delete
handler therefore answers 500 with "Failed to delete user" instead of 404. -/
theorem C1_DeleteUser_zero_rows (drv : Driver σ) (db : DB σ) (id : Int) (r : Result) (s : σ)
    (he : drv.exec db.state "DELETE FROM users WHERE id = ?" [.int id] = (.ok r, s))
    (h0 : r.RowsAffected.1 = 0) :
    (repositories.DeleteUser drv db id).1 = some (.new "no rows affected") ∧
    (GoError.new "no rows affected").Error ≠ "user not found" ∧
    ∀ c : controllers.Context, strconv.Atoi (c.Param "id") = some id →
      (controllers.DeleteUser drv db c).1 =
        .JSON 500 (.error "Failed to delete user") := by
  have hd := repositories.DeleteUser_of_exec_ok drv db id r s he
  rw [if_pos h0] at hd
  refine ⟨by rw [hd], by decide, ?_⟩
  intro c hp
  rw [controllers.DeleteUser_of_service drv db _ c id _ hp hd]
  rfl

/-- The situation of C1 on the empty table: deleting identifier 999 affects no row. -/
theorem C1_DeleteUser_zero_rows_witness :
    sqlite.driver.exec fixtures.emptyDB.state "DELETE FROM users WHERE id = ?" [.int 999]
        = (.ok (sqlmock.NewResult 0 0), []) ∧
      (sqlmock.NewResult 0 0).RowsAffected.1 = 0 ∧
      ((repositories.DeleteUser sqlite.driver fixtures.emptyDB 999).1
          = some (.new "no rows affected") ∧
        (GoError.new "no rows affected").Error ≠ "user not found" ∧
        ∀ c : controllers.Context, strconv.Atoi (c.Param "id") = some 999 →
          (controllers.DeleteUser sqlite.driver fixtures.emptyDB c).1 =
            .JSON 500 (.error "Failed to delete user")) :=
  ⟨rfl, rfl, C1_DeleteUser_zero_rows sqlite.driver fixtures.emptyDB 999
    (sqlmock.NewResult 0 0) [] rfl rfl⟩

/-- C2: for a user that passes validation, when executing the `INSERT` fails with a SQLite
error carrying the unique-constraint extended code, or with an error whose message is
"duplicate username", `CreateUser` returns `ErrDuplicateUsername` wrapped by `%w`:
`errors.Is` holds, the message is exactly "duplicate username" and is not the generic
"failed to execute query" message, and the Create handler returns the HTTP error 409
"username already exists". -/
theorem C2_CreateUser_duplicate (v : validator.Validate) (drv : Driver σ) (db : DB σ)
    (u : User) (e : GoError) (s : σ) (hv : validator.Struct v u = none)
    (he : drv.exec db.state
      "INSERT INTO users (user_name,email,first_name,last_name,user_status,department) VALUES (?,?,?,?,?,?)"
      [.str u.UserName, .str u.Email, .str u.FirstName, .str u.LastName, .str u.Status,
       .str u.Department] = (.error e, s))
    (hu : (∃ code msg, e = .sqlite code repositories.ErrConstraintUnique msg) ∨
      e.Error = "duplicate username") :
    ∃ err, (repositories.CreateUser v drv db u).1 = some err ∧
      goerr.Is err .ErrDuplicateUsername = true ∧
      err.Error = "duplicate username" ∧
      strings.HasPrefix err.Error "failed to execute query" = false ∧
      ∀ c : controllers.Context, c.Bind = .ok u →
        (controllers.CreateUser v drv db c).1 = .HTTPError 409 "username already exists" := by
  have hc := repositories.CreateUser_of_exec_error v drv db u e s hv he
  have hcond : e.Error = "duplicate username" ∨
      repositories.isUniqueConstraintViolation e = true := by
    rcases hu with ⟨code, msg, rfl⟩ | hm
    · exact Or.inr (by simp [repositories.isUniqueConstraintViolation])
    · exact Or.inl hm
  rw [if_pos hcond] at hc
  refine ⟨.wrap "" (.sentinel .ErrDuplicateUsername), by rw [hc], rfl, rfl, by decide, ?_⟩
  intro c hb
  rw [controllers.CreateUser_of_service v drv db _ c u _ hb hc]
  rfl

/-- The situation of C2 on a table that holds `john`: creating `john` again violates the
uniqueness of `user_name`. -/
theorem C2_CreateUser_duplicate_witness :
    validator.Struct fixtures.validate fixtures.john = none ∧
    sqlite.driver.exec fixtures.johnDB.state
      "INSERT INTO users (user_name,email,first_name,last_name,user_status,department) VALUES (?,?,?,?,?,?)"
      [.str "john_doe", .str "john@example.com", .str "John", .str "Doe", .str "A", .str "IT"]
      = (.error (.sqlite 19 2067 "UNIQUE constraint failed: users.user_name"),
         fixtures.johnDB.state) ∧
    ∃ err, (repositories.CreateUser fixtures.validate sqlite.driver fixtures.johnDB
        fixtures.john).1 = some err ∧
      goerr.Is err .ErrDuplicateUsername = true ∧
      err.Error = "duplicate username" ∧
      strings.HasPrefix err.Error "failed to execute query" = false ∧
      ∀ c : controllers.Context, c.Bind = .ok fixtures.john →
        (controllers.CreateUser fixtures.validate sqlite.driver fixtures.johnDB c).1 =
          .HTTPError 409 "username already exists" :=
  ⟨rfl, rfl, C2_CreateUser_duplicate fixtures.validate sqlite.driver fixtures.johnDB
    fixtures.john _ _ rfl rfl (Or.inl ⟨19, _, rfl⟩)⟩

/-- C3: for every user in which first name, last name, user name, email, status or
department is empty, or whose email the validator rejects, or whose status is not one of
"A", "I", "T", both `CreateUser` and `UpdateUser` of the repository return an error whose
message starts with "validation failed:", and the handle is returned as it was: no
statement was sent and the storage state is the same. -/
theorem C3_invalid_user_rejected (v : validator.Validate) (drv : Driver σ) (db : DB σ)
    (u : User)
    (h : u.FirstName = "" ∨ u.LastName = "" ∨ u.UserName = "" ∨ u.Email = "" ∨
      u.Status = "" ∨ u.Department = "" ∨ v.isEmail u.Email = false ∨
      u.Status ∉ ["A", "I", "T"]) :
    (∃ err, repositories.CreateUser v drv db u = (some err, db) ∧
      strings.HasPrefix err.Error "validation failed:" = true) ∧
    (∃ err, repositories.UpdateUser v drv db u = (some err, db) ∧
      strings.HasPrefix err.Error "validation failed:" = true) := by
  have hne : validator.Struct v u ≠ none := by
    intro hs
    rw [validator.Struct_eq_none_iff] at hs
    obtain ⟨h1, h2, h3, h4, h5, h6, h7, h8⟩ := hs
    rcases h with h | h | h | h | h | h | h | h
    · exact h1 h
    · exact h2 h
    · exact h3 h
    · exact h4 h
    · exact h6 h
    · exact h8 h
    · rw [h5] at h; cases h
    · exact h h7
  obtain ⟨errs, hs⟩ := validator.Struct_eq_some v u hne
  exact ⟨⟨_, repositories.CreateUser_of_invalid v drv db u _ hs,
      (controllers.validation_message _).2.2⟩,
    ⟨_, repositories.UpdateUser_of_invalid v drv db u _ hs,
      (controllers.validation_message _).2.2⟩⟩

/-- The situation of C3 for a user with status "X". -/
theorem C3_invalid_user_rejected_witness :
    (fixtures.badStatus.FirstName = "" ∨ fixtures.badStatus.LastName = "" ∨
      fixtures.badStatus.UserName = "" ∨ fixtures.badStatus.Email = "" ∨
      fixtures.badStatus.Status = "" ∨ fixtures.badStatus.Department = "" ∨
      fixtures.validate.isEmail fixtures.badStatus.Email = false ∨
      fixtures.badStatus.Status ∉ ["A", "I", "T"]) ∧
    ((∃ err, repositories.CreateUser fixtures.validate sqlite.driver fixtures.johnDB
        fixtures.badStatus = (some err, fixtures.johnDB) ∧
      strings.HasPrefix err.Error "validation failed:" = true) ∧
    (∃ err, repositories.UpdateUser fixtures.validate sqlite.driver fixtures.johnDB
        fixtures.badStatus = (some err, fixtures.johnDB) ∧
      strings.HasPrefix err.Error "validation failed:" = true)) :=
  ⟨by decide, C3_invalid_user_rejected fixtures.validate sqlite.driver fixtures.johnDB
    fixtures.badStatus (by decide)⟩

/-- C4 (the code departs from the claim): when the body of an update request binds to a
user with a non-empty user name and email that fails validation, the Update handler maps
the validation error of the service to 500 with "Failed to create user", not to 400, and
sends no statement. -/
theorem C4_UpdateUser_validation_error (v : validator.Validate) (drv : Driver σ) (db : DB σ)
    (c : controllers.Context) (u : User) (hb : c.Bind = .ok u) (hn : u.UserName ≠ "")
    (hm : u.Email ≠ "") (hv : validator.Struct v u ≠ none) :
    controllers.UpdateUser v drv db c =
      (.JSON 500 (.error "Failed to create user"), db) := by
  obtain ⟨errs, hs⟩ := validator.Struct_eq_some v u hv
  have hr := repositories.UpdateUser_of_invalid v drv db u _ hs
  rw [controllers.UpdateUser_of_service v drv db db c u _ hb hn hm hr]
  simp only [if_neg (controllers.validation_message _).2.1]
  rfl

/-- The situation of C4 for a request whose body carries the status "X". -/
theorem C4_UpdateUser_validation_error_witness :
    (fixtures.context "1" fixtures.badStatus).Bind = .ok fixtures.badStatus ∧
    fixtures.badStatus.UserName ≠ "" ∧ fixtures.badStatus.Email ≠ "" ∧
    validator.Struct fixtures.validate fixtures.badStatus ≠ none ∧
    controllers.UpdateUser fixtures.validate sqlite.driver fixtures.johnDB
        (fixtures.context "1" fixtures.badStatus) =
      (.JSON 500 (.error "Failed to create user"), fixtures.johnDB) :=
  ⟨rfl, by decide, by decide, by decide,
    C4_UpdateUser_validation_error fixtures.validate sqlite.driver fixtures.johnDB
      (fixtures.context "1" fixtures.badStatus) fixtures.badStatus rfl (by decide) (by decide)
      (by decide)⟩

/-- C5: for every valid user, when the `UPDATE` executes without error and reports zero
affected rows, `UpdateUser` of the repository returns an error whose message is
"user not found", and the Update handler answers 404 with the body
`error: "User not found"`. -/
theorem C5_UpdateUser_zero_rows (v : validator.Validate) (drv : Driver σ) (db : DB σ)
    (u : User) (r : Result) (s : σ) (hv : validator.Struct v u = none)
    (he : drv.exec db.state
      "UPDATE users SET user_name = ?, email = ?, first_name = ?, last_name = ?, user_status = ?, department = ? WHERE id = ?"
      [.str u.UserName, .str u.Email, .str u.FirstName, .str u.LastName, .str u.Status,
       .str u.Department, .int u.ID] = (.ok r, s))
    (h0 : r.RowsAffected = (0, none)) :
    (∃ err, (repositories.UpdateUser v drv db u).1 = some err ∧
      err.Error = "user not found") ∧
    ∀ c : controllers.Context, c.Bind = .ok u →
      (controllers.UpdateUser v drv db c).1 = .JSON 404 (.error "User not found") := by
  have hu := repositories.UpdateUser_of_exec_ok v drv db u r s hv he
  rw [h0] at hu
  simp only [if_true] at hu
  refine ⟨⟨.new "user not found", by rw [hu], rfl⟩, ?_⟩
  intro c hb
  obtain ⟨_, _, hn, hm, _⟩ := (validator.Struct_eq_none_iff v u).1 hv
  rw [controllers.UpdateUser_of_service v drv db _ c u _ hb hn hm hu]
  rfl

/-- The situation of C5 on the empty table: updating identifier 999 affects no row. -/
theorem C5_UpdateUser_zero_rows_witness :
    validator.Struct fixtures.validate fixtures.updated = none ∧
    sqlite.driver.exec fixtures.emptyDB.state
      "UPDATE users SET user_name = ?, email = ?, first_name = ?, last_name = ?, user_status = ?, department = ? WHERE id = ?"
      [.str "updated_user", .str "updated_email@example.com", .str "Updated", .str "User",
       .str "A", .str "IT", .int 999] = (.ok (sqlmock.NewResult 0 0), []) ∧
    (sqlmock.NewResult 0 0).RowsAffected = (0, none) ∧
    ((∃ err, (repositories.UpdateUser fixtures.validate sqlite.driver fixtures.emptyDB
        fixtures.updated).1 = some err ∧ err.Error = "user not found") ∧
    ∀ c : controllers.Context, c.Bind = .ok fixtures.updated →
      (controllers.UpdateUser fixtures.validate sqlite.driver fixtures.emptyDB c).1 =
        .JSON 404 (.error "User not found")) :=
  ⟨rfl, rfl, rfl, C5_UpdateUser_zero_rows fixtures.validate sqlite.driver fixtures.emptyDB
    fixtures.updated (sqlmock.NewResult 0 0) [] rfl rfl rfl⟩

/-- C6: when the body of a create request binds to a user that fails validation, the
Create handler returns the HTTP error 400 "Invalid input" and the handle is returned as it
was: no statement was sent to the storage. -/
theorem C6_CreateUser_invalid_input (v : validator.Validate) (drv : Driver σ) (db : DB σ)
    (c : controllers.Context) (u : User) (hb : c.Bind = .ok u)
    (hv : validator.Struct v u ≠ none) :
    controllers.CreateUser v drv db c = (.HTTPError 400 "Invalid input", db) := by
  obtain ⟨errs, hs⟩ := validator.Struct_eq_some v u hv
  have hr := repositories.CreateUser_of_invalid v drv db u _ hs
  rw [controllers.CreateUser_of_service v drv db db c u _ hb hr]
  simp only [if_neg (controllers.validation_message _).1,
    if_pos (controllers.validation_message _).2.2]
  rfl

/-- The situation of C6 for the user all of whose fields are empty. -/
theorem C6_CreateUser_invalid_input_witness :
    (fixtures.context "" fixtures.zero).Bind = .ok fixtures.zero ∧
    validator.Struct fixtures.validate fixtures.zero ≠ none ∧
    controllers.CreateUser fixtures.validate sqlite.driver fixtures.emptyDB
        (fixtures.context "" fixtures.zero) =
      (.HTTPError 400 "Invalid input", fixtures.emptyDB) :=
  ⟨rfl, by decide,
    C6_CreateUser_invalid_input fixtures.validate sqlite.driver fixtures.emptyDB
      (fixtures.context "" fixtures.zero) fixtures.zero rfl (by decide)⟩

/-- C7 as stated fails: a SQLite uniqueness violation reported for the column `email`
is not a uniqueness violation on `user_name`, yet `CreateUser` answers it with the
duplicate-username error (message "duplicate username", not "failed to execute query: "
followed by the cause), and the Create handler answers 409 instead of 500. -/
theorem C7_counterexample :
    validator.Struct fixtures.validate fixtures.jane = none ∧
    (sqlmock.driver (.error fixtures.emailUnique) (.error fixtures.emailUnique)).exec
        sqlmock.New.state insertText (userArgs fixtures.jane)
      = (.error fixtures.emailUnique, ()) ∧
    fixtures.emailUnique = .sqlite 19 2067 "UNIQUE constraint failed: users.email" ∧
    spec.isUserNameUniqueViolation fixtures.emailUnique = false ∧
    (repositories.CreateUser fixtures.validate
        (sqlmock.driver (.error fixtures.emailUnique) (.error fixtures.emailUnique))
        sqlmock.New fixtures.jane).1
      = some (.wrap "" (.sentinel .ErrDuplicateUsername)) ∧
    (GoError.wrap "" (.sentinel .ErrDuplicateUsername)).Error = "duplicate username" ∧
    (GoError.wrap "" (.sentinel .ErrDuplicateUsername)).Error
      ≠ "failed to execute query: " ++ fixtures.emailUnique.Error ∧
    (controllers.CreateUser fixtures.validate
        (sqlmock.driver (.error fixtures.emailUnique) (.error fixtures.emailUnique))
        sqlmock.New (fixtures.context "" fixtures.jane)).1
      = .HTTPError 409 "username already exists" :=
  ⟨rfl, rfl, rfl, rfl, rfl, rfl, by decide, rfl⟩

/-- C7 as amended: for every valid user and every failure of the `INSERT` execution that
is neither a SQLite error with the unique-constraint extended code (whatever column it
names) nor an error whose message is exactly "duplicate username", `CreateUser` returns
the generic storage error: its message is "failed to execute query: " followed by the
message of the cause, unwrapping it yields the cause, it is not the duplicate-username
message, and the Create handler answers 500. And for every user, valid or not, and every
storage behaviour, `CreateUser` returns an error with the message "duplicate username"
only when the execution of the `INSERT` failed and the failure was a SQLite error with the
unique-constraint extended code or had the message "duplicate username": never after a
successful execution and never for a user that fails validation. -/
theorem C7_CreateUser_other_failure (v : validator.Validate) (drv : Driver σ) (db : DB σ)
    (u : User) :
    (∀ (e : GoError) (s : σ), validator.Struct v u = none →
      drv.exec db.state
        "INSERT INTO users (user_name,email,first_name,last_name,user_status,department) VALUES (?,?,?,?,?,?)"
        [.str u.UserName, .str u.Email, .str u.FirstName, .str u.LastName, .str u.Status,
         .str u.Department] = (.error e, s) →
      e.Error ≠ "duplicate username" →
      (∀ code msg, e ≠ .sqlite code repositories.ErrConstraintUnique msg) →
      ∃ err, (repositories.CreateUser v drv db u).1 = some err ∧
        err.Error = "failed to execute query: " ++ e.Error ∧
        goerr.Unwrap err = some e ∧
        err.Error ≠ "duplicate username" ∧
        ∀ c : controllers.Context, c.Bind = .ok u →
          (controllers.CreateUser v drv db c).1 = .HTTPError 500 "failed to create user") ∧
    (∀ err, (repositories.CreateUser v drv db u).1 = some err →
      err.Error = "duplicate username" →
      ∃ (e : GoError) (s : σ),
        drv.exec db.state
          "INSERT INTO users (user_name,email,first_name,last_name,user_status,department) VALUES (?,?,?,?,?,?)"
          [.str u.UserName, .str u.Email, .str u.FirstName, .str u.LastName, .str u.Status,
           .str u.Department] = (.error e, s) ∧
        ((∃ code msg, e = .sqlite code repositories.ErrConstraintUnique msg) ∨
          e.Error = "duplicate username")) := by
  constructor
  · intro e s hv he hnd hnu
    have hc := repositories.CreateUser_of_exec_error v drv db u e s hv he
    have hcond : ¬ (e.Error = "duplicate username" ∨
        repositories.isUniqueConstraintViolation e = true) := by
      rintro (h | h)
      · exact hnd h
      · obtain ⟨code, msg, rfl⟩ := (repositories.isUniqueConstraintViolation_iff e).1 h
        exact hnu code msg rfl
    rw [if_neg hcond] at hc
    refine ⟨.wrap "failed to execute query: " e, by rw [hc], rfl, rfl,
      (controllers.exec_failure_message e).1, ?_⟩
    intro c hb
    rw [controllers.CreateUser_of_service v drv db _ c u _ hb hc]
    simp only [if_neg (controllers.exec_failure_message e).1,
      (controllers.exec_failure_message e).2]
    rfl
  · intro err herr hmsg
    cases hs : validator.Struct v u with
    | some verr =>
      rw [repositories.CreateUser_of_invalid v drv db u verr hs] at herr
      simp only [Option.some.injEq] at herr
      rw [← herr] at hmsg
      exact absurd hmsg (controllers.validation_message verr).1
    | none =>
      rcases hx : drv.exec db.state insertText (userArgs u) with ⟨e | r, s⟩
      · have hc := repositories.CreateUser_of_exec_error v drv db u e s hs hx
        by_cases hcond : e.Error = "duplicate username" ∨
            repositories.isUniqueConstraintViolation e = true
        · refine ⟨e, s, hx, ?_⟩
          rcases hcond with h | h
          · exact Or.inr h
          · exact Or.inl ((repositories.isUniqueConstraintViolation_iff e).1 h)
        · rw [if_neg hcond] at hc
          rw [hc] at herr
          simp only [Option.some.injEq] at herr
          rw [← herr] at hmsg
          exact absurd hmsg (controllers.exec_failure_message e).1
      · rw [repositories.CreateUser_of_exec_ok v drv db u r s hs hx] at herr
        cases herr

/-- The situation of C7 as amended: a storage that reports a full disk is answered with the
generic storage error and 500, and the duplicate-username error returned for `john` on a
table that holds `john` comes from a failed `INSERT` with the unique-constraint code. -/
theorem C7_CreateUser_other_failure_witness :
    validator.Struct fixtures.validate fixtures.jane = none ∧
    (sqlmock.driver (.error fixtures.diskFull) (.error fixtures.diskFull)).exec
        sqlmock.New.state
        "INSERT INTO users (user_name,email,first_name,last_name,user_status,department) VALUES (?,?,?,?,?,?)"
        [.str "jane_roe", .str "jane@example.com", .str "Jane", .str "Roe", .str "I",
         .str "HR"]
      = (.error fixtures.diskFull, ()) ∧
    (fixtures.diskFull.Error ≠ "duplicate username" ∧
      (∀ code msg, fixtures.diskFull ≠ .sqlite code repositories.ErrConstraintUnique msg)) ∧
    (∃ err, (repositories.CreateUser fixtures.validate
          (sqlmock.driver (.error fixtures.diskFull) (.error fixtures.diskFull))
          sqlmock.New fixtures.jane).1 = some err ∧
      err.Error = "failed to execute query: " ++ fixtures.diskFull.Error ∧
      goerr.Unwrap err = some fixtures.diskFull ∧
      err.Error ≠ "duplicate username" ∧
      ∀ c : controllers.Context, c.Bind = .ok fixtures.jane →
        (controllers.CreateUser fixtures.validate
          (sqlmock.driver (.error fixtures.diskFull) (.error fixtures.diskFull))
          sqlmock.New c).1 = .HTTPError 500 "failed to create user") ∧
    (repositories.CreateUser fixtures.validate sqlite.driver fixtures.johnDB
        fixtures.john).1 = some (.wrap "" (.sentinel .ErrDuplicateUsername)) ∧
    (GoError.wrap "" (.sentinel .ErrDuplicateUsername)).Error = "duplicate username" ∧
    ∃ (e : GoError) (s : sqlite.Table),
      sqlite.driver.exec fixtures.johnDB.state
        "INSERT INTO users (user_name,email,first_name,last_name,user_status,department) VALUES (?,?,?,?,?,?)"
        [.str "john_doe", .str "john@example.com", .str "John", .str "Doe", .str "A",
         .str "IT"] = (.error e, s) ∧
      ((∃ code msg, e = .sqlite code repositories.ErrConstraintUnique msg) ∨
        e.Error = "duplicate username") :=
  have hd : fixtures.diskFull.Error ≠ "duplicate username" ∧
      (∀ code msg, fixtures.diskFull ≠ .sqlite code repositories.ErrConstraintUnique msg) :=
    ⟨by decide, fun code msg h => by
      simp [fixtures.diskFull, repositories.ErrConstraintUnique] at h⟩
  ⟨rfl, rfl, hd,
    (C7_CreateUser_other_failure fixtures.validate
      (sqlmock.driver (.error fixtures.diskFull) (.error fixtures.diskFull))
      sqlmock.New fixtures.jane).1 fixtures.diskFull () rfl rfl hd.1 hd.2,
    rfl, rfl,
    (C7_CreateUser_other_failure fixtures.validate sqlite.driver fixtures.johnDB
      fixtures.john).2 (.wrap "" (.sentinel .ErrDuplicateUsername)) rfl rfl⟩

/-- C8: for every user and identifier the statement built by `CreateUser`, `UpdateUser`,
`DeleteUser` and `GetUserByID` is a fixed text of table names, column names and `?`
placeholders, the same for any two users or identifiers; the values travel only in the
argument list: user name, email, first name, last name, status, department for the
`INSERT`, the same six followed by the identifier for the `UPDATE`, the identifier alone
for the `DELETE` and the by-id `SELECT`; and these texts with these arguments are what the
four operations send to the storage. -/
theorem C8_statements_parameterised (v : validator.Validate) (drv : Driver σ) (db : DB σ)
    (u u2 : User) (id id2 : Int) :
    (repositories.insertUser u).ToSql = .ok
      ("INSERT INTO users (user_name,email,first_name,last_name,user_status,department) VALUES (?,?,?,?,?,?)",
       [.str u.UserName, .str u.Email, .str u.FirstName, .str u.LastName, .str u.Status,
        .str u.Department]) ∧
    (repositories.updateUser u).ToSql = .ok
      ("UPDATE users SET user_name = ?, email = ?, first_name = ?, last_name = ?, user_status = ?, department = ? WHERE id = ?",
       [.str u.UserName, .str u.Email, .str u.FirstName, .str u.LastName, .str u.Status,
        .str u.Department, .int u.ID]) ∧
    (repositories.deleteUser id).ToSql = .ok ("DELETE FROM users WHERE id = ?", [.int id]) ∧
    (repositories.selectByID id).ToSql = .ok
      ("SELECT id, user_name, email, first_name, last_name, user_status, department FROM users WHERE id = ?",
       [.int id]) ∧
    ((repositories.insertUser u).ToSql.map Prod.fst
        = (repositories.insertUser u2).ToSql.map Prod.fst ∧
      (repositories.updateUser u).ToSql.map Prod.fst
        = (repositories.updateUser u2).ToSql.map Prod.fst ∧
      (repositories.deleteUser id).ToSql.map Prod.fst
        = (repositories.deleteUser id2).ToSql.map Prod.fst ∧
      (repositories.selectByID id).ToSql.map Prod.fst
        = (repositories.selectByID id2).ToSql.map Prod.fst) ∧
    (validator.Struct v u = none →
      (repositories.CreateUser v drv db u).2.log = db.log ++
        [("INSERT INTO users (user_name,email,first_name,last_name,user_status,department) VALUES (?,?,?,?,?,?)",
          [.str u.UserName, .str u.Email, .str u.FirstName, .str u.LastName, .str u.Status,
           .str u.Department])]) ∧
    (validator.Struct v u = none →
      (repositories.UpdateUser v drv db u).2.log = db.log ++
        [("UPDATE users SET user_name = ?, email = ?, first_name = ?, last_name = ?, user_status = ?, department = ? WHERE id = ?",
          [.str u.UserName, .str u.Email, .str u.FirstName, .str u.LastName, .str u.Status,
           .str u.Department, .int u.ID])]) ∧
    (repositories.DeleteUser drv db id).2.log = db.log ++
      [("DELETE FROM users WHERE id = ?", [.int id])] ∧
    (repositories.GetUserByID drv db id).2.log = db.log ++
      [("SELECT id, user_name, email, first_name, last_name, user_status, department FROM users WHERE id = ?",
        [.int id])] := by
  refine ⟨rfl, rfl, rfl, rfl, ⟨rfl, rfl, rfl, rfl⟩, ?_, ?_, ?_, ?_⟩
  · intro hv
    rcases hx : drv.exec db.state insertText (userArgs u) with ⟨r | r, s⟩
    · rw [repositories.CreateUser_of_exec_error v drv db u r s hv hx]; rfl
    · rw [repositories.CreateUser_of_exec_ok v drv db u r s hv hx]; rfl
  · intro hv
    rcases hx : drv.exec db.state updateText (userArgs u ++ [.int u.ID]) with ⟨r | r, s⟩
    · simp only [repositories.UpdateUser, hv, repositories.updateUser_ToSql, DB.Exec, hx]; rfl
    · rw [repositories.UpdateUser_of_exec_ok v drv db u r s hv hx]; rfl
  · rcases hx : drv.exec db.state deleteText [.int id] with ⟨r | r, s⟩
    · simp only [repositories.DeleteUser, repositories.deleteUser_ToSql, DB.Exec, hx]; rfl
    · rw [repositories.DeleteUser_of_exec_ok drv db id r s hx]; rfl
  · simp only [repositories.GetUserByID, repositories.selectByID_ToSql, DB.Query]
    rcases drv.query db.state selectByIDText [.int id] with ⟨e | ⟨rows, err⟩, s⟩
    · rfl
    · rcases rows with _ | ⟨row, more⟩
      · cases err <;> rfl
      · simp only
        cases repositories.scanUser row <;> rfl

/-- The statements of C8 as sent for `john`. -/
theorem C8_statements_parameterised_witness :
    validator.Struct fixtures.validate fixtures.john = none ∧
    (repositories.CreateUser fixtures.validate sqlite.driver fixtures.emptyDB
        fixtures.john).2.log =
      [("INSERT INTO users (user_name,email,first_name,last_name,user_status,department) VALUES (?,?,?,?,?,?)",
        [.str "john_doe", .str "john@example.com", .str "John", .str "Doe", .str "A",
         .str "IT"])] ∧
    (repositories.UpdateUser fixtures.validate sqlite.driver fixtures.emptyDB
        fixtures.john).2.log =
      [("UPDATE users SET user_name = ?, email = ?, first_name = ?, last_name = ?, user_status = ?, department = ? WHERE id = ?",
        [.str "john_doe", .str "john@example.com", .str "John", .str "Doe", .str "A",
         .str "IT", .int 0])] :=
  ⟨rfl,
    (C8_statements_parameterised fixtures.validate sqlite.driver fixtures.emptyDB
      fixtures.john fixtures.jane 1 2).2.2.2.2.2.1 rfl,
    (C8_statements_parameterised fixtures.validate sqlite.driver fixtures.emptyDB
      fixtures.john fixtures.jane 1 2).2.2.2.2.2.2.1 rfl⟩

/-- C9: for every input and every storage behaviour, each operation of the service
(`GetAllUsers`, `CreateUser`, `UpdateUser`, `DeleteUser`) returns exactly what the
operation of the same name of the repository returns on the same argument: the same
value, the same error (not wrapped again, so with the same message and the same
`errors.Is` identity), and the same handle, so the service sends no statement of its
own. -/
theorem C9_service_delegates (v : validator.Validate) (drv : Driver σ) (db : DB σ)
    (u : User) (id : Int) :
    services.GetAllUsers drv db = repositories.GetAllUsers drv db ∧
    services.CreateUser v drv db u = repositories.CreateUser v drv db u ∧
    services.UpdateUser v drv db u = repositories.UpdateUser v drv db u ∧
    services.DeleteUser drv db id = repositories.DeleteUser drv db id :=
  ⟨rfl, rfl, rfl, rfl⟩

/-- C10: over the `users` table as rows of named columns with storage-assigned
identifiers, for every valid user whose user name no stored row carries, `CreateUser`
succeeds, the storage assigns the identifier `nextRowId`, and `GetUserByID` on that
identifier returns a user with that identifier whose user name, email, first name,
last name, status and department are those submitted. -/
theorem C10_create_then_get (v : validator.Validate) (t : sqlite.Table)
    (log : List (String × List Value)) (u : User) (hv : validator.Struct v u = none)
    (hfresh : ∀ r ∈ t, r.lookup "user_name" ≠ some (.str u.UserName)) :
    ∃ db1 : DB sqlite.Table,
      repositories.CreateUser v sqlite.driver { state := t, log := log } u = (none, db1) ∧
      (sqlite.driver.exec t
          "INSERT INTO users (user_name,email,first_name,last_name,user_status,department) VALUES (?,?,?,?,?,?)"
          [.str u.UserName, .str u.Email, .str u.FirstName, .str u.LastName, .str u.Status,
           .str u.Department]).1
        = .ok { LastInsertId := (sqlite.nextRowId t, none), RowsAffected := (1, none) } ∧
      (repositories.GetUserByID sqlite.driver db1 (sqlite.nextRowId t)).1
        = .ok { ID := sqlite.nextRowId t, UserName := u.UserName, Email := u.Email,
                FirstName := u.FirstName, LastName := u.LastName, Status := u.Status,
                Department := u.Department } := by
  have hx := sqlite.exec_insert_fresh t u hfresh
  have hc := repositories.CreateUser_of_exec_ok v sqlite.driver { state := t, log := log } u
    _ _ hv hx
  refine ⟨_, hc, ?_, ?_⟩
  · exact congrArg Prod.fst hx
  · exact congrArg Prod.fst
      (repositories.GetUserByID_of_row sqlite.driver
        { state := t ++ [sqlite.newRow (sqlite.nextRowId t)
            (sqlite.dataColumns.zip (userArgs u))],
          log := log ++ [(insertText, userArgs u)] }
        (sqlite.nextRowId t) _ [] none _
        { ID := sqlite.nextRowId t, UserName := u.UserName, Email := u.Email,
          FirstName := u.FirstName, LastName := u.LastName, Status := u.Status,
          Department := u.Department }
        (sqlite.query_selectByID_new t u) rfl)

/-- The situation of C10 on a table that holds `john`: `jane` is created under
identifier 2 and read back. -/
theorem C10_create_then_get_witness :
    validator.Struct fixtures.validate fixtures.jane = none ∧
    (∀ r ∈ fixtures.johnDB.state,
      r.lookup "user_name" ≠ some (.str fixtures.jane.UserName)) ∧
    ∃ db1 : DB sqlite.Table,
      repositories.CreateUser fixtures.validate sqlite.driver
        { state := fixtures.johnDB.state, log := [] } fixtures.jane = (none, db1) ∧
      (sqlite.driver.exec fixtures.johnDB.state
          "INSERT INTO users (user_name,email,first_name,last_name,user_status,department) VALUES (?,?,?,?,?,?)"
          [.str "jane_roe", .str "jane@example.com", .str "Jane", .str "Roe", .str "I",
           .str "HR"]).1
        = .ok { LastInsertId := (2, none), RowsAffected := (1, none) } ∧
      (repositories.GetUserByID sqlite.driver db1 2).1
        = .ok { ID := 2, UserName := "jane_roe", Email := "jane@example.com",
                FirstName := "Jane", LastName := "Roe", Status := "I",
                Department := "HR" } :=
  have hf : ∀ r ∈ fixtures.johnDB.state,
      r.lookup "user_name" ≠ some (.str fixtures.jane.UserName) := by
    intro r hr
    rw [show fixtures.johnDB.state =
      [sqlite.newRow 1 (sqlite.dataColumns.zip (userArgs fixtures.john))] from rfl,
      List.mem_singleton] at hr
    subst hr
    decide
  ⟨rfl, hf, C10_create_then_get fixtures.validate fixtures.johnDB.state [] fixtures.jane
    rfl hf⟩

/-- C11 (the code departs from the claim): for every `PUT /users/:id` request whose body
binds to a valid user, the only statement the Update handler sends is the `UPDATE` whose
`WHERE id = ?` argument is the identifier field of the bound body, whatever the path
parameter `id` is: the handler never reads the path parameter, so a path identifier that
differs from the one in the body is not the last argument of the statement sent. -/
theorem C11_UpdateUser_where_id (v : validator.Validate) (drv : Driver σ) (db : DB σ)
    (c : controllers.Context) (u : User) (hb : c.Bind = .ok u)
    (hv : validator.Struct v u = none) :
    (controllers.UpdateUser v drv db c).2.log = db.log ++
      [("UPDATE users SET user_name = ?, email = ?, first_name = ?, last_name = ?, user_status = ?, department = ? WHERE id = ?",
        [.str u.UserName, .str u.Email, .str u.FirstName, .str u.LastName, .str u.Status,
         .str u.Department, .int u.ID])] ∧
    ∀ pathID : Int, strconv.Atoi (c.Param "id") = some pathID → pathID ≠ u.ID →
      ((controllers.UpdateUser v drv db c).2.log.getLast?.bind fun st => st.2.getLast?)
        ≠ some (.int pathID) := by
  obtain ⟨_, _, hn, hm, _⟩ := (validator.Struct_eq_none_iff v u).1 hv
  have hlog : (controllers.UpdateUser v drv db c).2.log =
      db.log ++ [(updateText, userArgs u ++ [.int u.ID])] := by
    rw [controllers.UpdateUser_handle v drv db c u hb hn hm]
    exact controllers.UpdateUser_log_of_valid v drv db u hv
  refine ⟨hlog, ?_⟩
  intro pathID _ hne h
  rw [hlog] at h
  simp only [List.getLast?_append, List.getLast?_singleton, Option.or, Option.some_bind,
    userArgs, List.cons_append, List.nil_append, List.getLast?_cons_cons,
    Option.some.injEq, Value.int.injEq] at h
  exact hne h.symm

/-- The situation of C11 on a table that holds `john` under identifier 1: a request for
`/users/1` whose body carries no identifier (it binds to 0) sends `WHERE id = ?` with 0,
leaves the row of identifier 1 as it was and is answered 404. -/
theorem C11_UpdateUser_where_id_witness :
    (fixtures.context "1" fixtures.jane).Bind = .ok fixtures.jane ∧
    validator.Struct fixtures.validate fixtures.jane = none ∧
    strconv.Atoi ((fixtures.context "1" fixtures.jane).Param "id") = some 1 ∧
    fixtures.jane.ID = 0 ∧
    (controllers.UpdateUser fixtures.validate sqlite.driver fixtures.johnDB
        (fixtures.context "1" fixtures.jane)).2.log =
      [("UPDATE users SET user_name = ?, email = ?, first_name = ?, last_name = ?, user_status = ?, department = ? WHERE id = ?",
        [.str "jane_roe", .str "jane@example.com", .str "Jane", .str "Roe", .str "I",
         .str "HR", .int 0])] ∧
    (controllers.UpdateUser fixtures.validate sqlite.driver fixtures.johnDB
        (fixtures.context "1" fixtures.jane)).2.state = fixtures.johnDB.state ∧
    (controllers.UpdateUser fixtures.validate sqlite.driver fixtures.johnDB
        (fixtures.context "1" fixtures.jane)).1 = .JSON 404 (.error "User not found") :=
  ⟨rfl, rfl, rfl, rfl,
    (C11_UpdateUser_where_id fixtures.validate sqlite.driver fixtures.johnDB
      (fixtures.context "1" fixtures.jane) fixtures.jane rfl rfl).1,
    rfl, rfl⟩

end claims
